import Mathlib

/-!
Shallow embedding of the expo-resolver repository (a Metro bundler web-compat
resolution layer plus a runtime proxy/fallback interception layer), with
theorems settling the frozen claims about it.

Source files embedded here:
- src/metro-web-compat/src/resolver.js            (createWebCompatResolver)
- src/metro-web-compat/src/resolver.js, 2nd part  (improved-pattern-detector:
  isTrulyNativeModule, getNativeDetectionConfidence, WEB_COMPATIBLE_LIBRARIES,
  NATIVE_ONLY_PATTERNS)
- src/metro-web-compat/utils/platform-detector.js (isWebPlatform)
- src/unnamed/part_005                            (createImprovedWebCompatResolver)
- src/unnamed/part_006                            (pattern-detector: isMobileSpecificModule)
- src/unnamed/part_010                            (FallbackManager)
- src/unnamed/part_023                            (RuntimeResolver.resolve)
- src/runtime-resolver/src/proxy-wrapper.js       (createMethodProxy, has trap)
- src/demo-app/runtime-resolver/src/proxy-wrapper.js (absent-property dispatch,
  createSafePropertyProxy, createReactContextProxy)
- src/demo-app/runtime-resolver/src/wrapper-generator.js (generateReactContextWrapper)

JavaScript exceptions are modelled with `Except JsError`; JavaScript truthiness
is modelled explicitly where the source relies on it.  Filesystem probes
(package.json reads, sibling-file listings) are modelled as oracle functions
passed in as parameters, since the embedded functions only branch on their
results.
-/

/-- A JavaScript exception value, as far as the embedded code inspects it:
either an Error thrown by this repository's own policy code (carrying its
message) or an opaque error coming from the delegate resolver, mock
generation, or a wrapped method. -/
inductive JsError where
  | policy (msg : String)
  | external (code : Nat)
deriving DecidableEq, Repr

/-- Substring test on strings: JS String.prototype.includes / an unanchored
literal regex test. -/
def charsInfix (sub : List Char) : List Char → Bool
  | [] => sub.isEmpty
  | c :: t => sub.isPrefixOf (c :: t) || charsInfix sub t

/-- JS s.includes(sub), and also an unanchored literal /sub/ regex test. -/
def strContains (s sub : String) : Bool :=
  charsInfix sub.toList s.toList

/-- JS truthiness of a possibly-absent string (undefined and the empty string
are falsy, every other string is truthy). -/
def strTruthy : Option String → Bool
  | none => false
  | some s => !(s == "")

/-- JS s.startsWith(pre) (kernel-reducible list-based version). -/
def strStartsWith (s pre : String) : Bool :=
  pre.toList.isPrefixOf s.toList

/-- JS s.toLowerCase() (kernel-reducible list-based version; the identifiers
involved are ASCII). -/
def strToLower (s : String) : String :=
  String.mk (s.toList.map Char.toLower)

/-! ## src/unnamed/part_006 — pattern-detector.js -/

/-- MOBILE_PATTERNS from pattern-detector.js: each regex is a prefix test, an
exact-match test, or an unanchored substring test; negative lookaheads
(?!web) become conjoined negated prefix tests. -/
def MOBILE_PATTERNS : List (String → Bool) :=
  [ fun s => strStartsWith s "react-native-" && !(strStartsWith s "react-native-web")
  , fun s => strStartsWith s "expo-" && !(strStartsWith s "expo-web")
  , fun s => strStartsWith s "@react-native-"
  , fun s => strStartsWith s "@expo/" && !(strStartsWith s "@expo/web")
  , fun s => strContains s "native-base"
  , fun s => strContains s "react-navigation"
  , fun s => strStartsWith s "@react-navigation/"
  , fun s => s == "react-native"
  , fun s => strStartsWith s "@react-native-community/"
  , fun s => strStartsWith s "react-native-reanimated"
  , fun s => strStartsWith s "react-native-gesture-handler"
  , fun s => strStartsWith s "react-native-svg"
  , fun s => strStartsWith s "react-native-vector-icons"
  , fun s => strStartsWith s "react-native-maps"
  , fun s => strStartsWith s "react-native-camera"
  , fun s => strStartsWith s "react-native-image-picker"
  , fun s => strStartsWith s "react-native-permissions"
  , fun s => strStartsWith s "react-native-share"
  , fun s => strStartsWith s "react-native-device-info"
  , fun s => strStartsWith s "react-native-keychain"
  , fun s => strStartsWith s "react-native-biometrics"
  , fun s => strStartsWith s "react-native-sensors"
  , fun s => strStartsWith s "react-native-bluetooth"
  , fun s => strStartsWith s "react-native-nfc"
  , fun s => strStartsWith s "react-native-haptic"
  , fun s => strStartsWith s "react-native-sound"
  , fun s => strStartsWith s "react-native-video"
  , fun s => strStartsWith s "react-native-webview"
  , fun s => strStartsWith s "react-native-sqlite"
  , fun s => strStartsWith s "react-native-fs"
  , fun s => strStartsWith s "react-native-contacts"
  , fun s => strStartsWith s "react-native-calendar"
  , fun s => strStartsWith s "react-native-push-notification"
  , fun s => strStartsWith s "react-native-linear-gradient"
  , fun s => strStartsWith s "react-native-background"
  , fun s => strStartsWith s "react-native-geolocation"
  , fun s => strStartsWith s "react-native-orientation"
  , fun s => strStartsWith s "react-native-splash-screen"
  , fun s => strStartsWith s "react-native-status-bar"
  , fun s => strStartsWith s "react-native-picker"
  , fun s => strStartsWith s "react-native-modal"
  , fun s => strStartsWith s "react-native-actionsheet"
  , fun s => strStartsWith s "react-native-swiper"
  , fun s => strStartsWith s "react-native-tab-view"
  , fun s => strStartsWith s "react-native-paper"
  , fun s => strStartsWith s "react-native-elements"
  , fun s => strStartsWith s "react-native-ui-lib"
  , fun s => strStartsWith s "react-native-super-grid"
  , fun s => strStartsWith s "react-native-fast-image"
  , fun s => strStartsWith s "react-native-image-crop-picker"
  , fun s => strStartsWith s "react-native-document-picker"
  , fun s => strStartsWith s "react-native-file-picker"
  , fun s => strStartsWith s "react-native-qrcode"
  , fun s => strStartsWith s "react-native-barcode"
  , fun s => strStartsWith s "react-native-vision-camera"
  , fun s => strStartsWith s "react-native-ml-kit"
  , fun s => strStartsWith s "react-native-face-detection"
  , fun s => strStartsWith s "react-native-text-recognition" ]

/-- WEB_COMPATIBLE_PATTERNS from pattern-detector.js. -/
def WEB_COMPATIBLE_PATTERNS : List (String → Bool) :=
  [ fun s => strStartsWith s "react-native-web"
  , fun s => strStartsWith s "expo-web"
  , fun s => strStartsWith s "@expo/web"
  , fun s => strStartsWith s "react-native-web-" ]

/-- pattern-detector.js isMobileSpecificModule: web-compatible patterns first
(returning false), then mobile-specific patterns. -/
def isMobileSpecificModule (moduleName : String) : Bool :=
  if WEB_COMPATIBLE_PATTERNS.any (fun p => p moduleName) then false
  else MOBILE_PATTERNS.any (fun p => p moduleName)

/-! ## src/metro-web-compat/src/resolver.js (2nd part) — improved-pattern-detector -/

/-- WEB_COMPATIBLE_LIBRARIES set from improved-pattern-detector. -/
def WEB_COMPATIBLE_LIBRARIES : List String :=
  [ "react-navigation"
  , "@react-navigation/native"
  , "@react-navigation/stack"
  , "@react-navigation/bottom-tabs"
  , "@react-navigation/drawer"
  , "react-native-paper"
  , "react-native-elements"
  , "react-native-vector-icons"
  , "react-native-svg"
  , "react-native-reanimated"
  , "react-native-gesture-handler"
  , "react-native-linear-gradient"
  , "react-native-webview"
  , "react-native-modal"
  , "react-native-super-grid"
  , "react-native-tab-view"
  , "react-native-pager-view"
  , "react-native-safe-area-context"
  , "react-native-screens"
  , "react-hook-form"
  , "@hookform/resolvers"
  , "react-native-web"
  , "expo-web"
  , "@expo/web" ]

/-- NATIVE_ONLY_PATTERNS from improved-pattern-detector: every entry is a
case-insensitive unanchored literal substring regex, stored here lowercased. -/
def NATIVE_ONLY_PATTERNS : List String :=
  [ "camera", "biometric", "fingerprint", "face-id", "touch-id", "bluetooth"
  , "nfc", "sensor", "haptic", "vibrat"
  , "background-job", "push-notification", "contacts", "calendar", "keychain"
  , "secure-store", "file-system", "document-picker", "image-picker"
  , "image-crop", "media-library", "photo", "video", "sound", "audio"
  , "speech", "voice", "ml-kit", "vision", "face-detection"
  , "text-recognition", "barcode", "qrcode"
  , "device-info", "device-id", "unique-id", "battery", "network-info"
  , "cellular", "wifi"
  , "share", "intent", "app-state", "permissions", "location", "geolocation"
  , "maps", "navigation", "orientation", "status-bar", "splash-screen"
  , "async-storage", "sqlite", "realm", "mmkv" ]

/-- hasNativeOnlyPatterns: any of the /i substring patterns matches. -/
def hasNativeOnlyPatterns (moduleName : String) : Bool :=
  NATIVE_ONLY_PATTERNS.any (fun p => strContains (strToLower moduleName) p)

/-- Result of checkPackageJsonPlatformSupport.  The function itself performs
filesystem reads (require.resolve + JSON.parse) and is therefore modelled as
an oracle producing one of its four string results; all failures collapse to
unknown in the source. -/
inductive PkgSupport where
  | webSupported
  | nativeOnly
  | likelyNativeOnly
  | unknown
deriving DecidableEq, Repr

/-- improved-pattern-detector isTrulyNativeModule.  `pkgSupport` is the
checkPackageJsonPlatformSupport filesystem oracle and `webFiles` the
hasWebSpecificFiles filesystem oracle. -/
def isTrulyNativeModule (pkgSupport : String → PkgSupport)
    (webFiles : String → Bool) (moduleName : String) : Bool :=
  if WEB_COMPATIBLE_LIBRARIES.contains moduleName then false
  else if strStartsWith (strToLower moduleName) "react-native-web" then false
  else if strStartsWith (strToLower moduleName) "expo-web" then false
  else if !(strContains moduleName "react-native") && !(strContains moduleName "expo") then
    false
  else if pkgSupport moduleName == PkgSupport.webSupported then false
  else if pkgSupport moduleName == PkgSupport.nativeOnly then true
  else if webFiles moduleName then false
  else if hasNativeOnlyPatterns moduleName then true
  else if strStartsWith moduleName "react-native-" || strStartsWith moduleName "expo-" then true
  else false

/-- ClassificationResult record of getNativeDetectionConfidence. -/
structure Detection where
  isNative : Bool
  confidence : String
  reason : String
deriving DecidableEq, Repr

/-- improved-pattern-detector getNativeDetectionConfidence (same two
filesystem oracles as isTrulyNativeModule). -/
def getNativeDetectionConfidence (pkgSupport : String → PkgSupport)
    (webFiles : String → Bool) (moduleName : String) : Detection :=
  if WEB_COMPATIBLE_LIBRARIES.contains moduleName then
    ⟨false, "high", "explicitly web-compatible"⟩
  else if pkgSupport moduleName == PkgSupport.webSupported then
    ⟨false, "high", "package.json indicates web support"⟩
  else if pkgSupport moduleName == PkgSupport.nativeOnly then
    ⟨true, "high", "package.json indicates native-only"⟩
  else if hasNativeOnlyPatterns moduleName then
    ⟨true, "medium", "module name suggests native-only functionality"⟩
  else if webFiles moduleName then
    ⟨false, "medium", "web-specific files found"⟩
  else if strStartsWith moduleName "react-native-" || strStartsWith moduleName "expo-" then
    ⟨true, "low", "react-native/expo prefix (conservative)"⟩
  else
    ⟨false, "low", "no native indicators found"⟩

/-! ## src/metro-web-compat/utils/platform-detector.js -/

/-- isWebPlatform(platform, webPlatforms): falsy platform (the empty string
standing for null/undefined/empty) is not web; otherwise membership of the
lowercased platform in the configured list. -/
def isWebPlatform (platform : String) (webPlatforms : List String) : Bool :=
  if platform == "" then false
  else webPlatforms.contains (strToLower platform)

/-! ## src/metro-web-compat/src/resolver.js — createWebCompatResolver -/

/-- Options object of createWebCompatResolver with the source's defaults
(enableLogging only controls log output and is not modelled). -/
structure BasicOptions where
  moduleMap : String → Option String := fun _ => none
  overrides : String → Option String := fun _ => none
  fallbackStrategy : String := "graceful"
  webPlatforms : List String := ["web", "browser"]
  generateMocks : Bool := true

/-- The try-block body of the resolver returned by createWebCompatResolver
(steps 1-5).  `builtIn` is the imported BUILT_IN_MAPPINGS table, `genMock`
the imported generateAutoMock (which may throw), `base` the wrapped Metro
resolver (context is constant and platform is threaded through unchanged, so
the delegate is modelled on (moduleName, platform)). -/
def webCompatTryBody {R : Type} (builtIn : String → Option String)
    (genMock : String → Except JsError String)
    (base : String → String → Except JsError R)
    (opts : BasicOptions) (moduleName platform : String) : Except JsError R :=
  match opts.overrides moduleName with
  | some s =>
    if s == "" then webCompatStep2 builtIn genMock base opts moduleName platform
    else base s platform
  | none => webCompatStep2 builtIn genMock base opts moduleName platform
where
  webCompatStep2 (builtIn : String → Option String)
      (genMock : String → Except JsError String)
      (base : String → String → Except JsError R)
      (opts : BasicOptions) (moduleName platform : String) : Except JsError R :=
    match opts.moduleMap moduleName with
    | some s =>
      if s == "" then webCompatStep3 builtIn genMock base opts moduleName platform
      else base s platform
    | none => webCompatStep3 builtIn genMock base opts moduleName platform
  webCompatStep3 (builtIn : String → Option String)
      (genMock : String → Except JsError String)
      (base : String → String → Except JsError R)
      (opts : BasicOptions) (moduleName platform : String) : Except JsError R :=
    match builtIn moduleName with
    | some s =>
      if s == "" then webCompatStep4 genMock base opts moduleName platform
      else base s platform
    | none => webCompatStep4 genMock base opts moduleName platform
  webCompatStep4 (genMock : String → Except JsError String)
      (base : String → String → Except JsError R)
      (opts : BasicOptions) (moduleName platform : String) : Except JsError R :=
    if isMobileSpecificModule moduleName then
      if opts.generateMocks then
        match genMock moduleName with
        | Except.ok mockPath => base mockPath platform
        | Except.error e => Except.error e
      else if opts.fallbackStrategy == "graceful" then
        Except.error (JsError.policy
          ("Mobile-specific module \"" ++ moduleName ++ "\" not available on web platform"))
      else base moduleName platform
    else base moduleName platform

/-- createWebCompatResolver from src/metro-web-compat/src/resolver.js: the
non-web short-circuit, then the try body, then the catch block which, AS
WRITTEN IN THE SOURCE, re-throws when fallbackStrategy is "graceful" and
falls back to delegating the original name otherwise. -/
def createWebCompatResolver {R : Type} (builtIn : String → Option String)
    (genMock : String → Except JsError String)
    (base : String → String → Except JsError R)
    (opts : BasicOptions) (moduleName platform : String) : Except JsError R :=
  if !(isWebPlatform platform opts.webPlatforms) then base moduleName platform
  else
    match webCompatTryBody builtIn genMock base opts moduleName platform with
    | Except.ok r => Except.ok r
    | Except.error e =>
      if opts.fallbackStrategy == "graceful" then Except.error e
      else base moduleName platform

/-! ## src/unnamed/part_005 — createImprovedWebCompatResolver -/

/-- An excludePatterns / forceIncludePatterns entry: a string compared for
equality, or a RegExp whose test is modelled as a predicate (anything else is
ignored by the source, i.e. matches nothing). -/
inductive MPat where
  | str (s : String)
  | regex (test : String → Bool)

/-- The some(...) matcher over exclude/force-include pattern lists. -/
def matchesMPat (moduleName : String) : MPat → Bool
  | MPat.str s => moduleName == s
  | MPat.regex t => t moduleName

/-- Options of createImprovedWebCompatResolver with the source's defaults. -/
structure ImprovedOptions where
  moduleMap : String → Option String := fun _ => none
  overrides : String → Option String := fun _ => none
  fallbackStrategy : String := "graceful"
  webPlatforms : List String := ["web", "browser"]
  generateMocks : Bool := true
  confidenceThreshold : String := "medium"
  excludePatterns : List MPat := []
  forceIncludePatterns : List MPat := []

/-- shouldProcessBasedOnConfidence: numeric confidence levels low=1 medium=2
high=3; an unknown level makes the JS comparison with undefined (NaN) false. -/
def shouldProcessBasedOnConfidence (detectionConfidence threshold : String) : Bool :=
  let level : String → Option Nat := fun c =>
    if c == "low" then some 1
    else if c == "medium" then some 2
    else if c == "high" then some 3
    else none
  match level detectionConfidence, level threshold with
  | some a, some b => decide (b ≤ a)
  | _, _ => false

/-- Try-block body of the resolver returned by createImprovedWebCompatResolver
(steps 0-6). -/
def improvedTryBody {R : Type} (builtIn : String → Option String)
    (pkgSupport : String → PkgSupport) (webFiles : String → Bool)
    (genMock : String → Except JsError String)
    (base : String → String → Except JsError R)
    (opts : ImprovedOptions) (moduleName platform : String) : Except JsError R :=
  if opts.excludePatterns.any (matchesMPat moduleName) then base moduleName platform
  else
    match opts.overrides moduleName with
    | some s =>
      if s == "" then improvedStep2 builtIn pkgSupport webFiles genMock base opts moduleName platform
      else base s platform
    | none => improvedStep2 builtIn pkgSupport webFiles genMock base opts moduleName platform
where
  improvedStep2 (builtIn : String → Option String)
      (pkgSupport : String → PkgSupport) (webFiles : String → Bool)
      (genMock : String → Except JsError String)
      (base : String → String → Except JsError R)
      (opts : ImprovedOptions) (moduleName platform : String) : Except JsError R :=
    match opts.moduleMap moduleName with
    | some s =>
      if s == "" then improvedStep3 builtIn pkgSupport webFiles genMock base opts moduleName platform
      else base s platform
    | none => improvedStep3 builtIn pkgSupport webFiles genMock base opts moduleName platform
  improvedStep3 (builtIn : String → Option String)
      (pkgSupport : String → PkgSupport) (webFiles : String → Bool)
      (genMock : String → Except JsError String)
      (base : String → String → Except JsError R)
      (opts : ImprovedOptions) (moduleName platform : String) : Except JsError R :=
    match builtIn moduleName with
    | some s =>
      if s == "" then improvedStep5 pkgSupport webFiles genMock base opts moduleName platform
      else base s platform
    | none => improvedStep5 pkgSupport webFiles genMock base opts moduleName platform
  improvedStep5 (pkgSupport : String → PkgSupport) (webFiles : String → Bool)
      (genMock : String → Except JsError String)
      (base : String → String → Except JsError R)
      (opts : ImprovedOptions) (moduleName platform : String) : Except JsError R :=
    let isForceIncluded := opts.forceIncludePatterns.any (matchesMPat moduleName)
    let detection := getNativeDetectionConfidence pkgSupport webFiles moduleName
    let shouldProcess := isForceIncluded ||
      (detection.isNative &&
        shouldProcessBasedOnConfidence detection.confidence opts.confidenceThreshold)
    if shouldProcess then
      if opts.generateMocks then
        match genMock moduleName with
        | Except.ok mockPath => base mockPath platform
        | Except.error e => Except.error e
      else if opts.fallbackStrategy == "strict" then
        Except.error (JsError.policy
          ("Native module \"" ++ moduleName ++ "\" not available on web platform"))
      else base moduleName platform
    else base moduleName platform

/-- createImprovedWebCompatResolver from src/unnamed/part_005: non-web
short-circuit, try body, and a catch block that re-throws when
fallbackStrategy is "strict" and re-delegates the original name otherwise. -/
def createImprovedWebCompatResolver {R : Type} (builtIn : String → Option String)
    (pkgSupport : String → PkgSupport) (webFiles : String → Bool)
    (genMock : String → Except JsError String)
    (base : String → String → Except JsError R)
    (opts : ImprovedOptions) (moduleName platform : String) : Except JsError R :=
  if !(isWebPlatform platform opts.webPlatforms) then base moduleName platform
  else
    match improvedTryBody builtIn pkgSupport webFiles genMock base opts moduleName platform with
    | Except.ok r => Except.ok r
    | Except.error e =>
      if opts.fallbackStrategy == "strict" then Except.error e
      else base moduleName platform

/-! ## JavaScript runtime values -/

/-- JS s.endsWith(suffix) (kernel-reducible list-based version). -/
def strEndsWith (s suffix : String) : Bool :=
  suffix.toList.isSuffixOf s.toList

/-- A JavaScript value as far as the runtime-resolver layer inspects one. -/
inductive JSVal where
  | null
  | undef
  | bool (b : Bool)
  | num (n : Int)
  | str (s : String)
  | arr (elems : List JSVal)
  | obj (fields : List (String × JSVal))
  | errVal (e : JsError)

/-- JS truthiness of a JSVal (objects, arrays and error objects are truthy). -/
def jsTruthy : JSVal → Bool
  | JSVal.null => false
  | JSVal.undef => false
  | JSVal.bool b => b
  | JSVal.num n => !(n == 0)
  | JSVal.str s => !(s == "")
  | JSVal.arr _ => true
  | JSVal.obj _ => true
  | JSVal.errVal _ => true

/-- JS a || b where a may be absent (undefined): first truthy operand, else b. -/
def jsOrVal (a : Option JSVal) (b : JSVal) : JSVal :=
  match a with
  | some v => if jsTruthy v then v else b
  | none => b

/-! ## src/unnamed/part_010 — FallbackManager -/

/-- A fallback rule entry: a plain value, or a function.  A function entry is
modelled as a JS function of its (positional) argument list that may throw;
executeCustomFallback passes (error, args, methodName) as the three
positional arguments, executeBuiltInFallback spreads the method arguments. -/
inductive FbEntry where
  | val (v : JSVal)
  | func (f : List JSVal → Except JsError JSVal)

/-- JS truthiness of a fallback entry (functions are always truthy). -/
def fbTruthy : FbEntry → Bool
  | FbEntry.val v => jsTruthy v
  | FbEntry.func _ => true

/-- FallbackManager's this.config, with the constructor defaults. -/
structure FMConfig where
  returnValue : JSVal := JSVal.null
  throwErr : Bool := false
  logMessage : Bool := true
  customFallbacks : String → Option FbEntry := fun _ => none

/-- The per-call / per-method config object threaded through the proxy
(each field may be undefined, i.e. none). -/
structure MethodConfig where
  fallback : Option FbEntry := none
  throwErr : Option Bool := none
  returnValue : Option JSVal := none

/-- A FallbackManager instance: its config plus the builtInFallbacks table.
The table built by initializeBuiltInFallbacks closes over browser APIs
(navigator, window) and is therefore kept as a parameter of the model:
module name to (method name to entry). -/
structure FallbackManager where
  config : FMConfig := {}
  builtInFallbacks : String → Option (String → Option FbEntry) := fun _ => none

/-- The stored-table part of getCustomFallback: this.config.customFallbacks
at the full path, subject to JS truthiness. -/
def storedCustomFallback (fm : FallbackManager) (fullPath : String) : Option FbEntry :=
  match fm.config.customFallbacks fullPath with
  | some e => if fbTruthy e then some e else none
  | none => none

/-- FallbackManager.getCustomFallback: config.fallback ||
this.config.customFallbacks[fullPath] || null, returning the first truthy
entry (none stands for the null result). -/
def getCustomFallback (fm : FallbackManager) (fullPath : String)
    (perCall : Option FbEntry) : Option FbEntry :=
  match perCall with
  | some e => if fbTruthy e then some e else storedCustomFallback fm fullPath
  | none => storedCustomFallback fm fullPath

/-- JS fullPath.split('.') over the character list. -/
def splitOnDot (s : String) : List String :=
  (s.toList.foldr
    (fun c acc =>
      if c == '.' then [] :: acc
      else
        match acc with
        | h :: t => (c :: h) :: t
        | [] => [[c]])
    [[]]).map String.mk

/-- JS parts.join('.'). -/
def joinDots : List String → String
  | [] => ""
  | [s] => s
  | s :: t => s ++ "." ++ joinDots t

/-- FallbackManager.getBuiltInFallback: split the full path at the first dot
into module name and method name and look the entry up in the built-in
table, subject to JS truthiness of both levels. -/
def getBuiltInFallback (fm : FallbackManager) (fullPath : String) : Option FbEntry :=
  let parts := splitOnDot fullPath
  let moduleName := parts.headD ""
  let methodName := joinDots parts.tail
  match fm.builtInFallbacks moduleName with
  | some tbl =>
    match tbl methodName with
    | some e => if fbTruthy e then some e else none
    | none => none
  | none => none

/-- FallbackManager.isMethodName: the curated prefix/suffix patterns. -/
def isMethodName (prop : String) : Bool :=
  strStartsWith prop "get" || strStartsWith prop "set" || strStartsWith prop "is" ||
  strStartsWith prop "has" || strStartsWith prop "can" || strEndsWith prop "Async" ||
  strStartsWith prop "on" || strStartsWith prop "add" || strStartsWith prop "remove" ||
  strStartsWith prop "start" || strStartsWith prop "stop" || strStartsWith prop "open" ||
  strStartsWith prop "close" || strStartsWith prop "create" || strStartsWith prop "delete" ||
  strStartsWith prop "update"

/-- Result of FallbackManager.getFallbackValue: a custom/built-in entry
returned as-is, the generated warn-and-return method stub (carrying the
return value it closes over), or the plain configured return value. -/
inductive FallbackValue where
  | entry (e : FbEntry)
  | methodStub (fullPath : String) (ret : JSVal)
  | plain (v : JSVal)

/-- FallbackManager.getFallbackValue. -/
def getFallbackValue (fm : FallbackManager) (moduleName prop : String)
    (cfg : MethodConfig) : FallbackValue :=
  let fullPath := moduleName ++ "." ++ prop
  match getCustomFallback fm fullPath cfg.fallback with
  | some e => FallbackValue.entry e
  | none =>
    match getBuiltInFallback fm fullPath with
    | some e => FallbackValue.entry e
    | none =>
      if isMethodName prop then
        FallbackValue.methodStub fullPath (jsOrVal cfg.returnValue fm.config.returnValue)
      else
        FallbackValue.plain (jsOrVal cfg.returnValue fm.config.returnValue)

/-- FallbackManager.executeCustomFallback: a function entry is called with
(error, args, methodName) as its three arguments; a value entry is returned. -/
def executeCustomFallback (e : FbEntry) (error : JsError) (args : List JSVal)
    (methodName : String) : Except JsError JSVal :=
  match e with
  | FbEntry.func f => f [JSVal.errVal error, JSVal.arr args, JSVal.str methodName]
  | FbEntry.val v => Except.ok v

/-- FallbackManager.executeBuiltInFallback: a function entry is called with
the original call arguments spread; a value entry is returned. -/
def executeBuiltInFallback (e : FbEntry) (args : List JSVal) : Except JsError JSVal :=
  match e with
  | FbEntry.func f => f args
  | FbEntry.val v => Except.ok v

/-- FallbackManager.executeDefaultFallback: config.throwError / returnValue
override the manager-level config only when defined (strict !== undefined
checks in the source); in throw mode the original error is re-thrown. -/
def executeDefaultFallback (fm : FallbackManager) (error : JsError)
    (cfg : MethodConfig) : Except JsError JSVal :=
  let shouldThrow := cfg.throwErr.getD fm.config.throwErr
  let returnValue := cfg.returnValue.getD fm.config.returnValue
  if shouldThrow then Except.error error else Except.ok returnValue

/-- FallbackManager.handleMethodError: custom fallback, then built-in
fallback, then the default strategy. -/
def handleMethodError (fm : FallbackManager) (methodName : String)
    (error : JsError) (args : List JSVal) (cfg : MethodConfig) : Except JsError JSVal :=
  match getCustomFallback fm methodName cfg.fallback with
  | some e => executeCustomFallback e error args methodName
  | none =>
    match getBuiltInFallback fm methodName with
    | some e => executeBuiltInFallback e args
    | none => executeDefaultFallback fm error cfg

/-- FallbackManager.hasFallback: truthiness of getCustomFallback (called
without a per-call config) or of getBuiltInFallback at the full path. -/
def hasFallback (fm : FallbackManager) (moduleName prop : String) : Bool :=
  (getCustomFallback fm (moduleName ++ "." ++ prop) none).isSome ||
  (getBuiltInFallback fm (moduleName ++ "." ++ prop)).isSome

/-! ## src/runtime-resolver/src/proxy-wrapper.js -/

/-- The outcome of calling the original (unwrapped) method on given
arguments: a synchronous throw, a plain (non-thenable) value, or a thenable
whose eventual settlement is recorded. -/
inductive MethodOutcome where
  | thrown (e : JsError)
  | value (v : JSVal)
  | promise (p : Except JsError JSVal)

/-- What the wrapped method hands back when it does not itself throw: a
plain value or a promise with its eventual settlement. -/
inductive WrappedResult where
  | sync (v : JSVal)
  | asyncp (p : Except JsError JSVal)

/-- createMethodProxy: call the original method; route a synchronous throw
through handleMethodError (whose own throw propagates); attach a catch
handler to a thenable result routing a rejection through handleMethodError
(whose own throw re-rejects the returned promise). -/
def createMethodProxy (fm : FallbackManager) (cfg : MethodConfig)
    (moduleName methodName : String) (method : List JSVal → MethodOutcome)
    (args : List JSVal) : Except JsError WrappedResult :=
  let fullMethodName := moduleName ++ "." ++ methodName
  match method args with
  | MethodOutcome.value v => Except.ok (WrappedResult.sync v)
  | MethodOutcome.promise (Except.ok v) => Except.ok (WrappedResult.asyncp (Except.ok v))
  | MethodOutcome.promise (Except.error e) =>
    Except.ok (WrappedResult.asyncp (handleMethodError fm fullMethodName e args cfg))
  | MethodOutcome.thrown e =>
    match handleMethodError fm fullMethodName e args cfg with
    | Except.ok v => Except.ok (WrappedResult.sync v)
    | Except.error e2 => Except.error e2

/-- The error, if any, that escapes to the caller of a wrapped method: a
synchronous (re-)throw, or a rejection of the returned promise. -/
def escapedError : Except JsError WrappedResult → Option JsError
  | Except.error e => some e
  | Except.ok (WrappedResult.asyncp (Except.error e)) => some e
  | _ => none

/-- The value, if any, delivered by a wrapped method call, synchronously or
as the resolution of the returned promise. -/
def deliveredValue : Except JsError WrappedResult → Option JSVal
  | Except.ok (WrappedResult.sync v) => some v
  | Except.ok (WrappedResult.asyncp (Except.ok v)) => some v
  | _ => none

/-- The has trap of createProxyWrapper
(src/runtime-resolver/src/proxy-wrapper.js): prop in obj (modelled by the
target's own key list) or hasFallback. -/
def hasTrap (targetKeys : List String) (fm : FallbackManager)
    (moduleName prop : String) : Bool :=
  targetKeys.contains prop || hasFallback fm moduleName prop

/-! ## src/unnamed/part_023 — RuntimeResolver -/

/-- A runtime module object with identity: null/undefined, an original
module object, or a proxy allocated by the resolver (allocation ids model
JS reference identity of freshly constructed proxies). -/
inductive RObj where
  | jsNull
  | base (id : Nat)
  | proxyOf (allocId : Nat) (name : String)
  | fallbackProxy (allocId : Nat) (name : String)
deriving DecidableEq, Repr

/-- The resolver's moduleCache and an allocation counter tracking proxy
construction. -/
structure RRState where
  cache : List (String × RObj) := []
  nextAlloc : Nat := 0
deriving DecidableEq, Repr

/-- Map.get on the module cache. -/
def lookupCache : List (String × RObj) → String → Option RObj
  | [], _ => none
  | (k, v) :: t, n => if k == n then some v else lookupCache t n

/-- RuntimeResolver.resolve: cache hit returns the cached object and leaves
everything untouched; off web the original object is cached and returned
unchanged; on web a proxy wrapper is constructed (a fallback proxy when the
original module is null/undefined, per createProxyWrapper), cached and
returned. -/
def RuntimeResolver.resolve (isWeb : Bool) (st : RRState) (moduleName : String)
    (originalModule : RObj) : RObj × RRState :=
  match lookupCache st.cache moduleName with
  | some m => (m, st)
  | none =>
    if !isWeb then
      (originalModule, { st with cache := (moduleName, originalModule) :: st.cache })
    else
      let proxy :=
        match originalModule with
        | RObj.jsNull => RObj.fallbackProxy st.nextAlloc moduleName
        | _ => RObj.proxyOf st.nextAlloc moduleName
      (proxy, { cache := (moduleName, proxy) :: st.cache, nextAlloc := st.nextAlloc + 1 })

/-! ## src/demo-app/runtime-resolver/src/proxy-wrapper.js — absent-property
dispatch and safe property proxy -/

/-- The stand-in produced by the demo-app createProxyWrapper get trap for a
property name absent from the target, tagged by which shape rule fired. -/
inductive AbsentPropResult where
  | eventEmitter (moduleName prop : String)
  | contextWrapped (moduleName prop : String)
  | component (moduleName prop : String)
  | hook (moduleName prop : String)
  | listenerStub (moduleName prop : String)
  | removeListenerStub (moduleName prop : String)
  | safeProxy (moduleName prop : String)

/-- The hook-shaped name test: prop.startsWith('use') && prop.length > 3 &&
prop[3] === prop[3].toUpperCase(). -/
def isHookShapedName (prop : String) : Bool :=
  strStartsWith prop "use" && decide (3 < prop.toList.length) &&
    (match prop.toList.get? 3 with
     | some c => c.toUpper == c
     | none => false)

/-- The absent-property branch of the demo-app createProxyWrapper get trap
(property keys are modelled as strings, i.e. property names).  Every branch
constructs a stand-in; the Except return type records that no branch
contains a throwing operation. -/
def absentPropGet (moduleName prop : String) : Except JsError AbsentPropResult :=
  if prop == "PushEvents" || strEndsWith prop "Events" then
    Except.ok (AbsentPropResult.eventEmitter moduleName prop)
  else if strEndsWith prop "Context" || prop == "Context" then
    Except.ok (AbsentPropResult.contextWrapped moduleName prop)
  else if strEndsWith prop "Provider" || strEndsWith prop "Consumer" ||
      strEndsWith prop "View" || strEndsWith prop "Component" then
    Except.ok (AbsentPropResult.component moduleName prop)
  else if isHookShapedName prop then
    Except.ok (AbsentPropResult.hook moduleName prop)
  else if prop == "addListener" || prop == "addEventListener" then
    Except.ok (AbsentPropResult.listenerStub moduleName prop)
  else if prop == "removeListener" || prop == "removeEventListener" ||
      prop == "removeAllListeners" then
    Except.ok (AbsentPropResult.removeListenerStub moduleName prop)
  else
    Except.ok (AbsentPropResult.safeProxy moduleName prop)

/-- What reading a (string-named) property of a safe property proxy yields. -/
inductive SafeRead where
  | toStringFn (path : String)
  | valueOfNull
  | toPrimitiveNull
  | nested (path prop : String)

/-- The get trap of createSafePropertyProxy: toString / valueOf /
Symbol.toPrimitive stand-ins (the symbol key is modelled by the sentinel
name "Symbol.toPrimitive"), and a deeper safe proxy for everything else. -/
def safePropertyProxyGet (fullPath nestedProp : String) : Except JsError SafeRead :=
  if nestedProp == "toString" then Except.ok (SafeRead.toStringFn fullPath)
  else if nestedProp == "valueOf" then Except.ok SafeRead.valueOfNull
  else if nestedProp == "Symbol.toPrimitive" then Except.ok SafeRead.toPrimitiveNull
  else Except.ok (SafeRead.nested fullPath nestedProp)

/-! ## Context stand-in Consumers
(src/demo-app/runtime-resolver/src/proxy-wrapper.js createReactContextProxy
and src/demo-app/runtime-resolver/src/wrapper-generator.js
generateReactContextWrapper) -/

/-- The children of the props object handed to a Consumer: a function child
or a plain value (undef models absent children). -/
inductive Child where
  | fn (f : JSVal → JSVal)
  | val (v : JSVal)

/-- The default value literal shared by both context stand-ins:
insets/frame zeros. -/
def contextProxyDefaultValue : JSVal :=
  JSVal.obj
    [ ("insets", JSVal.obj
        [ ("top", JSVal.num 0), ("bottom", JSVal.num 0)
        , ("left", JSVal.num 0), ("right", JSVal.num 0) ])
    , ("frame", JSVal.obj
        [ ("x", JSVal.num 0), ("y", JSVal.num 0)
        , ("width", JSVal.num 0), ("height", JSVal.num 0) ]) ]

/-- The Consumer body shared verbatim by both sources: call a function
child with the default value (the second component records the argument of
each invocation of the child), otherwise return children || null. -/
def runConsumer (defaultValue : JSVal) (children : Child) : JSVal × List JSVal :=
  match children with
  | Child.fn f => (f defaultValue, [defaultValue])
  | Child.val v => (if jsTruthy v then v else JSVal.null, [])

/-- The Consumer returned by reading .Consumer on createReactContextProxy. -/
def createReactContextProxyConsumer (children : Child) : JSVal × List JSVal :=
  runConsumer contextProxyDefaultValue children

/-- generateReactContextWrapper's contextDefaultValue: exportInfo.defaultValue
|| the shared literal. -/
def wgContextDefaultValue (dv : JSVal) : JSVal :=
  if jsTruthy dv then dv else contextProxyDefaultValue

/-- The Consumer installed by generateReactContextWrapper, for a stand-in
whose exportInfo.defaultValue is dv. -/
def generateReactContextWrapperConsumer (dv : JSVal) (children : Child) :
    JSVal × List JSVal :=
  runConsumer (wgContextDefaultValue dv) children

/-! ## Concrete fixtures used by witnesses and concrete evaluations -/

/-- A delegate resolver that succeeds on every (name, platform) pair. -/
def plainBase : String → String → Except JsError String :=
  fun m p => Except.ok (m ++ "|" ++ p)

/-- A delegate resolver that throws on the substitute identifier "sub-a" and
succeeds elsewhere. -/
def failSubBase : String → String → Except JsError String :=
  fun m p => if m == "sub-a" then Except.error (JsError.external 1) else Except.ok (m ++ "|" ++ p)

/-- An override tier mapping pkg-a to sub-a. -/
def pkgAOverrides : String → Option String :=
  fun n => if n == "pkg-a" then some "sub-a" else none

/-- A user-map tier mapping pkg-b to sub-b. -/
def pkgBUserMap : String → Option String :=
  fun n => if n == "pkg-b" then some "sub-b" else none

/-- A built-in tier mapping pkg-c to sub-c. -/
def pkgCBuiltIn : String → Option String :=
  fun n => if n == "pkg-c" then some "sub-c" else none

/-- An empty built-in mapping table. -/
def noBuiltIn : String → Option String := fun _ => none

/-- A mock generator that always throws (never reached in the fixtures that
use it). -/
def noMock : String → Except JsError String := fun _ => Except.error (JsError.external 99)

/-- A package.json oracle that never finds platform support markers. -/
def unknownPkg : String → PkgSupport := fun _ => PkgSupport.unknown

/-- A filesystem oracle that never finds web-specific sibling files. -/
def noWebFiles : String → Bool := fun _ => false

/-- Basic resolver options: graceful strategy, pkg-a override. -/
def gracefulOverrideOpts : BasicOptions := { overrides := pkgAOverrides }

/-- Basic resolver options: strict strategy, pkg-a override. -/
def strictOverrideOpts : BasicOptions :=
  { overrides := pkgAOverrides, fallbackStrategy := "strict" }

/-- Improved resolver options: graceful strategy, pkg-a override. -/
def igracefulOverrideOpts : ImprovedOptions := { overrides := pkgAOverrides }

/-- Improved resolver options: strict strategy, pkg-a override. -/
def istrictOverrideOpts : ImprovedOptions :=
  { overrides := pkgAOverrides, fallbackStrategy := "strict" }

/-- Basic resolver options: graceful, mock generation disabled. -/
def mocksOffGraceful : BasicOptions := { generateMocks := false }

/-- Basic resolver options: strict, mock generation disabled. -/
def mocksOffStrict : BasicOptions := { generateMocks := false, fallbackStrategy := "strict" }

/-- Improved resolver options: graceful, mock generation disabled. -/
def imocksOffGraceful : ImprovedOptions := { generateMocks := false }

/-- Improved resolver options: strict, mock generation disabled. -/
def imocksOffStrict : ImprovedOptions :=
  { generateMocks := false, fallbackStrategy := "strict" }

/-- Basic resolver options carrying only the pkg-b user map. -/
def optsUserMap : BasicOptions := { moduleMap := pkgBUserMap }

/-- Improved resolver options carrying only the pkg-b user map. -/
def ioptsUserMap : ImprovedOptions := { moduleMap := pkgBUserMap }

/-- A fallback manager with all defaults and no built-in table. -/
def fmEmpty : FallbackManager := {}

/-- A fallback manager with one per-module custom rule for m.f. -/
def fmPerModule : FallbackManager :=
  { config := { customFallbacks := fun p =>
      if p == "m.f" then some (FbEntry.val (JSVal.str "per-module")) else none } }

/-- A fallback manager with one built-in rule for m.f. -/
def fmBuiltIn : FallbackManager :=
  { builtInFallbacks := fun mn =>
      if mn == "m" then
        some (fun me => if me == "f" then some (FbEntry.val (JSVal.str "built-in")) else none)
      else none }

/-- A method that always throws synchronously. -/
def throwingMethod : List JSVal → MethodOutcome :=
  fun _ => MethodOutcome.thrown (JsError.external 5)

/-- A method that always returns a rejecting promise. -/
def rejectingMethod : List JSVal → MethodOutcome :=
  fun _ => MethodOutcome.promise (Except.error (JsError.external 6))

/-! ## Theorems settling the claims -/

/-- C6: two sequential RuntimeResolver.resolve calls with the same module
name on the same resolver state return the identical cached object, the
second call constructing nothing new: re-resolving the name (with any second
original module) is the identity on both the returned object and the whole
resolver state, so at most one top-level proxy exists per module name. -/
theorem claim_C6_resolve_cached_idempotent (isWeb : Bool) (st : RRState)
    (moduleName : String) (o o2 : RObj) :
    RuntimeResolver.resolve isWeb
        (RuntimeResolver.resolve isWeb st moduleName o).2 moduleName o2 =
      RuntimeResolver.resolve isWeb st moduleName o := by
  unfold RuntimeResolver.resolve
  cases h : lookupCache st.cache moduleName with
  | some m => simp [h]
  | none =>
    cases isWeb with
    | false => simp [h, lookupCache]
    | true => cases o <;> simp [h, lookupCache]

/-- C7: when the environment detector reports a non-browser-like target,
RuntimeResolver.resolve returns the original module object itself (the same
reference), constructs no proxy (the allocation counter is untouched), and
only records the original object in the cache. -/
theorem claim_C7_nonweb_returns_original (st : RRState) (moduleName : String)
    (o : RObj) (h : lookupCache st.cache moduleName = none) :
    (RuntimeResolver.resolve false st moduleName o).1 = o ∧
      (RuntimeResolver.resolve false st moduleName o).2.nextAlloc = st.nextAlloc ∧
      (RuntimeResolver.resolve false st moduleName o).2.cache =
        (moduleName, o) :: st.cache := by
  unfold RuntimeResolver.resolve
  simp [h]

/-- Witness for C7 at a concrete fresh resolver state and module object. -/
theorem claim_C7_nonweb_returns_original_witness :
    (RuntimeResolver.resolve false {} "react-native-camera" (RObj.base 7)).1 =
        RObj.base 7 ∧
      (RuntimeResolver.resolve false {} "react-native-camera" (RObj.base 7)).2.nextAlloc = 0 ∧
      (RuntimeResolver.resolve false {} "react-native-camera" (RObj.base 7)).2.cache =
        [("react-native-camera", RObj.base 7)] :=
  claim_C7_nonweb_returns_original {} "react-native-camera" (RObj.base 7) rfl

/-- C9: for both synthesized context stand-ins (the wrapper-generator one and
the proxy-wrapper one), invoking the Consumer with a props object whose
children is a function calls that function exactly once, with the stand-in's
default value as its argument, and returns the function's result. -/
theorem claim_C9_consumer_calls_child_once (f : JSVal → JSVal) (dv : JSVal) :
    createReactContextProxyConsumer (Child.fn f) =
        (f contextProxyDefaultValue, [contextProxyDefaultValue]) ∧
      generateReactContextWrapperConsumer dv (Child.fn f) =
        (f (wgContextDefaultValue dv), [wgContextDefaultValue dv]) :=
  ⟨rfl, rfl⟩

/-- C4: a read of any property name absent from a wrapped target never
throws: the demo-app get trap's absent-property dispatch produces a stand-in
on every name, whatever its shape, and so does every nested read on the safe
property proxy it falls back to. -/
theorem claim_C4_absent_prop_read_never_throws (moduleName prop fullPath nestedProp : String) :
    (absentPropGet moduleName prop).isOk = true ∧
      (safePropertyProxyGet fullPath nestedProp).isOk = true := by
  constructor
  · unfold absentPropGet
    split_ifs <;> rfl
  · unfold safePropertyProxyGet
    split_ifs <;> rfl

/-- C1 (code bug evaluation): at the concrete failing input — override
pkg-a mapped to sub-a, delegate throwing on sub-a, platform web — the
resolver of src/metro-web-compat/src/resolver.js PROPAGATES the caught
delegate exception under the 'graceful' strategy and recovers by
re-delegating the original identifier under the 'strict' strategy, the exact
inverse of the claim; the sibling resolver of src/unnamed/part_005 behaves
as the claim states (graceful falls through to delegating "pkg-a" unchanged,
strict propagates). -/
theorem claim_C1_catch_strategies_evaluated :
    createWebCompatResolver noBuiltIn noMock failSubBase gracefulOverrideOpts
        "pkg-a" "web" = Except.error (JsError.external 1) ∧
      createWebCompatResolver noBuiltIn noMock failSubBase strictOverrideOpts
        "pkg-a" "web" = Except.ok "pkg-a|web" ∧
      createImprovedWebCompatResolver noBuiltIn unknownPkg noWebFiles noMock
        failSubBase igracefulOverrideOpts "pkg-a" "web" = Except.ok "pkg-a|web" ∧
      createImprovedWebCompatResolver noBuiltIn unknownPkg noWebFiles noMock
        failSubBase istrictOverrideOpts "pkg-a" "web" =
        Except.error (JsError.external 1) :=
  ⟨rfl, rfl, rfl, rfl⟩

/-- C5 (code bug evaluation): at the concrete failing input — identifier
react-native-camera (mobile-classified), mock generation disabled, platform
web — the resolver of src/metro-web-compat/src/resolver.js raises the
policy error under the 'graceful' strategy and delegates the original
identifier under the 'strict' strategy, the exact inverse of the claim; the
resolver of src/unnamed/part_005 behaves as the claim states (strict raises
a policy error, graceful delegates the original identifier unchanged). -/
theorem claim_C5_mocks_disabled_evaluated :
    createWebCompatResolver noBuiltIn noMock plainBase mocksOffGraceful
        "react-native-camera" "web" =
        Except.error (JsError.policy
          "Mobile-specific module \"react-native-camera\" not available on web platform") ∧
      createWebCompatResolver noBuiltIn noMock plainBase mocksOffStrict
        "react-native-camera" "web" = Except.ok "react-native-camera|web" ∧
      createImprovedWebCompatResolver noBuiltIn unknownPkg noWebFiles noMock
        plainBase imocksOffStrict "react-native-camera" "web" =
        Except.error (JsError.policy
          "Native module \"react-native-camera\" not available on web platform") ∧
      createImprovedWebCompatResolver noBuiltIn unknownPkg noWebFiles noMock
        plainBase imocksOffGraceful "react-native-camera" "web" =
        Except.ok "react-native-camera|web" :=
  ⟨rfl, rfl, rfl, rfl⟩

/-- C8 counterexample: the identifier "my-camera-lib" mentions neither of
the two mobile-ecosystem namespace prefixes (react-native / expo), yet the
confidence-scoring classifier getNativeDetectionConfidence classifies it as
mobile-only (medium confidence) via the hardware-keyword rule: that
classifier has no neither-prefix early-exit, so the claimed rule does not
decide before the hardware-keyword rule there. -/
theorem claim_C8_counterexample :
    strContains "my-camera-lib" "react-native" = false ∧
      strContains "my-camera-lib" "expo" = false ∧
      getNativeDetectionConfidence unknownPkg noWebFiles "my-camera-lib" =
        ⟨true, "medium", "module name suggests native-only functionality"⟩ :=
  ⟨rfl, rfl, rfl⟩

/-- C8 amended: for every identifier whose text mentions neither of the two
mobile-ecosystem namespace prefixes, the boolean classifier
isTrulyNativeModule classifies it as not mobile-only, before any
package-metadata or hardware-keyword rule applies (the result is false for
every filesystem oracle, so those rules are never decisive); the
confidence-scoring classifier getNativeDetectionConfidence does not
implement this rule and may classify such an identifier mobile-only via the
hardware-keyword rule. -/
theorem claim_C8_amended_no_prefix_not_native
    (pkgSupport : String → PkgSupport) (webFiles : String → Bool)
    (moduleName : String)
    (h1 : strContains moduleName "react-native" = false)
    (h2 : strContains moduleName "expo" = false) :
    isTrulyNativeModule pkgSupport webFiles moduleName = false := by
  unfold isTrulyNativeModule
  rw [h1, h2]
  split_ifs <;> simp_all

/-- Witness for the amended C8 at the concrete identifier "my-camera-lib"
(which even carries a hardware keyword) and concrete oracles. -/
theorem claim_C8_amended_no_prefix_not_native_witness :
    strContains "my-camera-lib" "react-native" = false ∧
      strContains "my-camera-lib" "expo" = false ∧
      isTrulyNativeModule unknownPkg noWebFiles "my-camera-lib" = false :=
  ⟨rfl, rfl,
    claim_C8_amended_no_prefix_not_native unknownPkg noWebFiles "my-camera-lib" rfl rfl⟩

/-- C2: in both resolvers, for an identifier present (with a truthy
substitute) in a mapping tier, resolution on a browser-like target delegates
exactly the substitute from the highest-precedence tier containing it
(override over userMap over builtIn, each lower tier consulted only when the
higher ones are absent/falsy for the identifier), and resolution on a
non-browser-like target delegates the original identifier unchanged. -/
theorem claim_C2_tier_precedence {R : Type}
    (builtIn : String → Option String) (genMock : String → Except JsError String)
    (pkgSupport : String → PkgSupport) (webFiles : String → Bool)
    (base : String → String → Except JsError R)
    (opts : BasicOptions) (iopts : ImprovedOptions)
    (name platform sub : String) (r : R) :
    (isWebPlatform platform opts.webPlatforms = false →
      createWebCompatResolver builtIn genMock base opts name platform =
        base name platform)
    ∧ (isWebPlatform platform opts.webPlatforms = true →
        opts.overrides name = some sub → sub ≠ "" →
        base sub platform = Except.ok r →
        createWebCompatResolver builtIn genMock base opts name platform = Except.ok r)
    ∧ (isWebPlatform platform opts.webPlatforms = true →
        strTruthy (opts.overrides name) = false →
        opts.moduleMap name = some sub → sub ≠ "" →
        base sub platform = Except.ok r →
        createWebCompatResolver builtIn genMock base opts name platform = Except.ok r)
    ∧ (isWebPlatform platform opts.webPlatforms = true →
        strTruthy (opts.overrides name) = false →
        strTruthy (opts.moduleMap name) = false →
        builtIn name = some sub → sub ≠ "" →
        base sub platform = Except.ok r →
        createWebCompatResolver builtIn genMock base opts name platform = Except.ok r)
    ∧ (isWebPlatform platform iopts.webPlatforms = false →
        createImprovedWebCompatResolver builtIn pkgSupport webFiles genMock base
          iopts name platform = base name platform)
    ∧ (isWebPlatform platform iopts.webPlatforms = true →
        iopts.excludePatterns.any (matchesMPat name) = false →
        iopts.overrides name = some sub → sub ≠ "" →
        base sub platform = Except.ok r →
        createImprovedWebCompatResolver builtIn pkgSupport webFiles genMock base
          iopts name platform = Except.ok r)
    ∧ (isWebPlatform platform iopts.webPlatforms = true →
        iopts.excludePatterns.any (matchesMPat name) = false →
        strTruthy (iopts.overrides name) = false →
        iopts.moduleMap name = some sub → sub ≠ "" →
        base sub platform = Except.ok r →
        createImprovedWebCompatResolver builtIn pkgSupport webFiles genMock base
          iopts name platform = Except.ok r)
    ∧ (isWebPlatform platform iopts.webPlatforms = true →
        iopts.excludePatterns.any (matchesMPat name) = false →
        strTruthy (iopts.overrides name) = false →
        strTruthy (iopts.moduleMap name) = false →
        builtIn name = some sub → sub ≠ "" →
        base sub platform = Except.ok r →
        createImprovedWebCompatResolver builtIn pkgSupport webFiles genMock base
          iopts name platform = Except.ok r) := by
  refine ⟨?_, ?_, ?_, ?_, ?_, ?_, ?_, ?_⟩
  · intro hw
    simp [createWebCompatResolver, hw]
  · intro hw hov hsub hbase
    simp [createWebCompatResolver, webCompatTryBody, hw, hov, hsub, hbase]
  · intro hw hovF hmap hsub hbase
    rcases hco : opts.overrides name with _ | s
    · simp [createWebCompatResolver, webCompatTryBody,
        webCompatTryBody.webCompatStep2, hw, hco, hmap, hsub, hbase]
    · rw [hco] at hovF
      simp [strTruthy] at hovF
      subst hovF
      simp [createWebCompatResolver, webCompatTryBody,
        webCompatTryBody.webCompatStep2, hw, hco, hmap, hsub, hbase]
  · intro hw hovF hmapF hbi hsub hbase
    rcases hco : opts.overrides name with _ | s <;>
      [skip; (rw [hco] at hovF; simp [strTruthy] at hovF; subst hovF)] <;>
    rcases hcm : opts.moduleMap name with _ | t <;>
      [skip; (rw [hcm] at hmapF; simp [strTruthy] at hmapF; subst hmapF);
       skip; (rw [hcm] at hmapF; simp [strTruthy] at hmapF; subst hmapF)] <;>
    simp [createWebCompatResolver, webCompatTryBody,
      webCompatTryBody.webCompatStep2, webCompatTryBody.webCompatStep3,
      hw, hco, hcm, hbi, hsub, hbase]
  · intro hw
    simp [createImprovedWebCompatResolver, hw]
  · intro hw hex hov hsub hbase
    simp [createImprovedWebCompatResolver, improvedTryBody, hw, hex, hov, hsub, hbase]
  · intro hw hex hovF hmap hsub hbase
    rcases hco : iopts.overrides name with _ | s
    · simp [createImprovedWebCompatResolver, improvedTryBody,
        improvedTryBody.improvedStep2, hw, hex, hco, hmap, hsub, hbase]
    · rw [hco] at hovF
      simp [strTruthy] at hovF
      subst hovF
      simp [createImprovedWebCompatResolver, improvedTryBody,
        improvedTryBody.improvedStep2, hw, hex, hco, hmap, hsub, hbase]
  · intro hw hex hovF hmapF hbi hsub hbase
    rcases hco : iopts.overrides name with _ | s <;>
      [skip; (rw [hco] at hovF; simp [strTruthy] at hovF; subst hovF)] <;>
    rcases hcm : iopts.moduleMap name with _ | t <;>
      [skip; (rw [hcm] at hmapF; simp [strTruthy] at hmapF; subst hmapF);
       skip; (rw [hcm] at hmapF; simp [strTruthy] at hmapF; subst hmapF)] <;>
    simp [createImprovedWebCompatResolver, improvedTryBody,
      improvedTryBody.improvedStep2, improvedTryBody.improvedStep3,
      hw, hex, hco, hcm, hbi, hsub, hbase]

/-- Witness for C2: each tier and the non-web pass-through exercised on
concrete configurations, for both resolvers. -/
theorem claim_C2_tier_precedence_witness :
    createWebCompatResolver pkgCBuiltIn noMock plainBase {} "pkg-a" "ios" =
        plainBase "pkg-a" "ios" ∧
      createWebCompatResolver pkgCBuiltIn noMock plainBase gracefulOverrideOpts
        "pkg-a" "web" = Except.ok "sub-a|web" ∧
      createWebCompatResolver pkgCBuiltIn noMock plainBase optsUserMap
        "pkg-b" "web" = Except.ok "sub-b|web" ∧
      createWebCompatResolver pkgCBuiltIn noMock plainBase {} "pkg-c" "web" =
        Except.ok "sub-c|web" ∧
      createImprovedWebCompatResolver pkgCBuiltIn unknownPkg noWebFiles noMock
        plainBase {} "pkg-a" "ios" = plainBase "pkg-a" "ios" ∧
      createImprovedWebCompatResolver pkgCBuiltIn unknownPkg noWebFiles noMock
        plainBase igracefulOverrideOpts "pkg-a" "web" = Except.ok "sub-a|web" ∧
      createImprovedWebCompatResolver pkgCBuiltIn unknownPkg noWebFiles noMock
        plainBase ioptsUserMap "pkg-b" "web" = Except.ok "sub-b|web" ∧
      createImprovedWebCompatResolver pkgCBuiltIn unknownPkg noWebFiles noMock
        plainBase {} "pkg-c" "web" = Except.ok "sub-c|web" :=
  ⟨(claim_C2_tier_precedence pkgCBuiltIn noMock unknownPkg noWebFiles plainBase
      {} {} "pkg-a" "ios" "" ("x")).1 rfl,
    (claim_C2_tier_precedence pkgCBuiltIn noMock unknownPkg noWebFiles plainBase
      gracefulOverrideOpts {} "pkg-a" "web" "sub-a" "sub-a|web").2.1 rfl rfl
      (by decide) rfl,
    (claim_C2_tier_precedence pkgCBuiltIn noMock unknownPkg noWebFiles plainBase
      optsUserMap {} "pkg-b" "web" "sub-b" "sub-b|web").2.2.1 rfl rfl rfl
      (by decide) rfl,
    (claim_C2_tier_precedence pkgCBuiltIn noMock unknownPkg noWebFiles plainBase
      {} {} "pkg-c" "web" "sub-c" "sub-c|web").2.2.2.1 rfl rfl rfl rfl
      (by decide) rfl,
    (claim_C2_tier_precedence pkgCBuiltIn noMock unknownPkg noWebFiles plainBase
      {} {} "pkg-a" "ios" "" ("x")).2.2.2.2.1 rfl,
    (claim_C2_tier_precedence pkgCBuiltIn noMock unknownPkg noWebFiles plainBase
      {} igracefulOverrideOpts "pkg-a" "web" "sub-a" "sub-a|web").2.2.2.2.2.1 rfl
      rfl rfl (by decide) rfl,
    (claim_C2_tier_precedence pkgCBuiltIn noMock unknownPkg noWebFiles plainBase
      {} ioptsUserMap "pkg-b" "web" "sub-b" "sub-b|web").2.2.2.2.2.2.1 rfl rfl
      rfl rfl (by decide) rfl,
    (claim_C2_tier_precedence pkgCBuiltIn noMock unknownPkg noWebFiles plainBase
      {} {} "pkg-c" "web" "sub-c" "sub-c|web").2.2.2.2.2.2.2 rfl rfl rfl rfl
      rfl (by decide) rfl⟩

/-- C3: for a wrapped method that throws synchronously or whose returned
promise rejects, the interception wrapper delivers the Fallback Policy's
declared value — per-call fallback first, then the per-module custom table,
then the built-in table, then the generic configured default — and the
original error does not escape (neither as a synchronous throw nor as a
rejection of the returned promise); the original error escapes only when no
rule matches and throw mode (per-call or global throwError) is configured. -/
theorem claim_C3_wrapped_method_error_fallback
    (fm : FallbackManager) (cfg : MethodConfig) (moduleName methodName : String)
    (method : List JSVal → MethodOutcome) (args : List JSVal) (e : JsError) (v : JSVal)
    (hfail : method args = MethodOutcome.thrown e ∨
      method args = MethodOutcome.promise (Except.error e)) :
    (cfg.fallback = some (FbEntry.val v) → jsTruthy v = true →
      deliveredValue (createMethodProxy fm cfg moduleName methodName method args) = some v ∧
        escapedError (createMethodProxy fm cfg moduleName methodName method args) = none)
    ∧ (cfg.fallback = none →
        fm.config.customFallbacks (moduleName ++ "." ++ methodName) =
          some (FbEntry.val v) → jsTruthy v = true →
        deliveredValue (createMethodProxy fm cfg moduleName methodName method args) = some v ∧
          escapedError (createMethodProxy fm cfg moduleName methodName method args) = none)
    ∧ (cfg.fallback = none →
        storedCustomFallback fm (moduleName ++ "." ++ methodName) = none →
        getBuiltInFallback fm (moduleName ++ "." ++ methodName) = some (FbEntry.val v) →
        deliveredValue (createMethodProxy fm cfg moduleName methodName method args) = some v ∧
          escapedError (createMethodProxy fm cfg moduleName methodName method args) = none)
    ∧ (cfg.fallback = none →
        storedCustomFallback fm (moduleName ++ "." ++ methodName) = none →
        getBuiltInFallback fm (moduleName ++ "." ++ methodName) = none →
        cfg.throwErr.getD fm.config.throwErr = false →
        deliveredValue (createMethodProxy fm cfg moduleName methodName method args) =
            some (cfg.returnValue.getD fm.config.returnValue) ∧
          escapedError (createMethodProxy fm cfg moduleName methodName method args) = none)
    ∧ (cfg.fallback = none →
        storedCustomFallback fm (moduleName ++ "." ++ methodName) = none →
        getBuiltInFallback fm (moduleName ++ "." ++ methodName) = none →
        cfg.throwErr.getD fm.config.throwErr = true →
        escapedError (createMethodProxy fm cfg moduleName methodName method args) = some e) := by
  refine ⟨?_, ?_, ?_, ?_, ?_⟩
  · intro h1 h2
    rcases hfail with hf | hf <;>
      simp [createMethodProxy, handleMethodError, getCustomFallback, fbTruthy,
        executeCustomFallback, deliveredValue, escapedError, hf, h1, h2]
  · intro h1 h2 h3
    rcases hfail with hf | hf <;>
      simp [createMethodProxy, handleMethodError, getCustomFallback,
        storedCustomFallback, fbTruthy, executeCustomFallback, deliveredValue,
        escapedError, hf, h1, h2, h3]
  · intro h1 h2 h3
    rcases hfail with hf | hf <;>
      simp [createMethodProxy, handleMethodError, getCustomFallback,
        executeBuiltInFallback, deliveredValue, escapedError, hf, h1, h2, h3]
  · intro h1 h2 h3 h4
    rcases hfail with hf | hf <;>
      simp [createMethodProxy, handleMethodError, getCustomFallback,
        executeDefaultFallback, deliveredValue, escapedError, hf, h1, h2, h3, h4]
  · intro h1 h2 h3 h4
    rcases hfail with hf | hf <;>
      simp [createMethodProxy, handleMethodError, getCustomFallback,
        executeDefaultFallback, deliveredValue, escapedError, hf, h1, h2, h3, h4]

/-- Witness for C3: each fallback tier, the generic default and the strict
re-throw exercised at concrete inputs, covering both the synchronous-throw
and the promise-rejection failure modes. -/
theorem claim_C3_wrapped_method_error_fallback_witness :
    (deliveredValue (createMethodProxy fmEmpty
        { fallback := some (FbEntry.val (JSVal.str "per-call")) } "m" "f"
        throwingMethod []) = some (JSVal.str "per-call") ∧
      escapedError (createMethodProxy fmEmpty
        { fallback := some (FbEntry.val (JSVal.str "per-call")) } "m" "f"
        throwingMethod []) = none) ∧
    (deliveredValue (createMethodProxy fmPerModule {} "m" "f" rejectingMethod []) =
        some (JSVal.str "per-module") ∧
      escapedError (createMethodProxy fmPerModule {} "m" "f" rejectingMethod []) = none) ∧
    (deliveredValue (createMethodProxy fmBuiltIn {} "m" "f" throwingMethod []) =
        some (JSVal.str "built-in") ∧
      escapedError (createMethodProxy fmBuiltIn {} "m" "f" throwingMethod []) = none) ∧
    (deliveredValue (createMethodProxy fmEmpty {} "m" "f" rejectingMethod []) =
        some JSVal.null ∧
      escapedError (createMethodProxy fmEmpty {} "m" "f" rejectingMethod []) = none) ∧
    escapedError (createMethodProxy fmEmpty { throwErr := some true } "m" "f"
        throwingMethod []) = some (JsError.external 5) :=
  ⟨(claim_C3_wrapped_method_error_fallback fmEmpty
      { fallback := some (FbEntry.val (JSVal.str "per-call")) } "m" "f"
      throwingMethod [] (JsError.external 5) (JSVal.str "per-call")
      (Or.inl rfl)).1 rfl rfl,
    (claim_C3_wrapped_method_error_fallback fmPerModule {} "m" "f"
      rejectingMethod [] (JsError.external 6) (JSVal.str "per-module")
      (Or.inr rfl)).2.1 rfl rfl rfl,
    (claim_C3_wrapped_method_error_fallback fmBuiltIn {} "m" "f"
      throwingMethod [] (JsError.external 5) (JSVal.str "built-in")
      (Or.inl rfl)).2.2.1 rfl rfl rfl,
    (claim_C3_wrapped_method_error_fallback fmEmpty {} "m" "f"
      rejectingMethod [] (JsError.external 6) JSVal.null
      (Or.inr rfl)).2.2.2.1 rfl rfl rfl rfl,
    (claim_C3_wrapped_method_error_fallback fmEmpty { throwErr := some true }
      "m" "f" throwingMethod [] (JsError.external 5) JSVal.null
      (Or.inl rfl)).2.2.2.2 rfl rfl rfl rfl⟩

/-- C10: for a property name absent from the wrapped target with no truthy
per-call/custom rule and no built-in table entry, the has trap reports false
while a read through getFallbackValue still yields the non-throwing
naming-convention default (a warn-and-return method stub for method-shaped
names, the configured plain return value otherwise); and whenever a built-in
rule does exist the membership test reports true, so the two disagree
exactly on the convention-derived defaults. -/
theorem claim_C10_has_get_disagree_on_convention_defaults
    (fm : FallbackManager) (targetKeys : List String) (moduleName prop : String)
    (cfg : MethodConfig) :
    (targetKeys.contains prop = false →
      getCustomFallback fm (moduleName ++ "." ++ prop) cfg.fallback = none →
      getBuiltInFallback fm (moduleName ++ "." ++ prop) = none →
      hasTrap targetKeys fm moduleName prop = false ∧
        getFallbackValue fm moduleName prop cfg =
          (if isMethodName prop then
            FallbackValue.methodStub (moduleName ++ "." ++ prop)
              (jsOrVal cfg.returnValue fm.config.returnValue)
          else FallbackValue.plain (jsOrVal cfg.returnValue fm.config.returnValue)))
    ∧ (∀ en, getBuiltInFallback fm (moduleName ++ "." ++ prop) = some en →
        hasTrap targetKeys fm moduleName prop = true) := by
  constructor
  · intro hk hc hb
    have hstored : storedCustomFallback fm (moduleName ++ "." ++ prop) = none := by
      rcases hcf : cfg.fallback with _ | en
      · rw [hcf] at hc
        simpa [getCustomFallback] using hc
      · rw [hcf] at hc
        rcases ht : fbTruthy en with _ | _
        · simpa [getCustomFallback, ht] using hc
        · simp [getCustomFallback, ht] at hc
    have hcnone : getCustomFallback fm (moduleName ++ "." ++ prop) none = none := by
      simpa [getCustomFallback] using hstored
    have hk2 : prop ∉ targetKeys := by simpa using hk
    constructor
    · simp [hasTrap, hasFallback, hk2, hcnone, hb]
    · simp [getFallbackValue, hc, hb]
  · intro en hbi
    simp [hasTrap, hasFallback, hbi]

/-- Witness for C10: a method-shaped absent name with no rules (membership
false, read yields a method stub), and a name with a built-in rule
(membership true). -/
theorem claim_C10_has_get_disagree_witness :
    (hasTrap [] fmEmpty "mod" "getItem" = false ∧
      getFallbackValue fmEmpty "mod" "getItem" {} =
        (if isMethodName "getItem" then
          FallbackValue.methodStub ("mod" ++ "." ++ "getItem")
            (jsOrVal (MethodConfig.returnValue {}) fmEmpty.config.returnValue)
        else FallbackValue.plain
          (jsOrVal (MethodConfig.returnValue {}) fmEmpty.config.returnValue))) ∧
    hasTrap [] fmBuiltIn "m" "f" = true :=
  ⟨(claim_C10_has_get_disagree_on_convention_defaults fmEmpty [] "mod" "getItem" {}).1
      rfl rfl rfl,
    (claim_C10_has_get_disagree_on_convention_defaults fmBuiltIn [] "m" "f" {}).2
      (FbEntry.val (JSVal.str "built-in")) rfl⟩
